import Mathlib

/-!
Shallow embedding of the two license-plate scripts of this repository:
scripts/plate_detect.py (detector only) and scripts/plate_local.py
(detector plus OCR reader). External effects (file existence, image decode,
model load, model inference, crop save, OCR construction and inference)
are oracles supplied in an environment record; a run of a script is the
ordered list of observable events it performs, ending either in a process
exit after printing, or in an uncaught exception that prints no JSON.
-/

namespace Tonsuu

/-- JSON values printed by the scripts: null, booleans, floats, integers,
strings, and flat integer arrays (the only array shape the scripts emit). -/
inductive JVal where
  | null
  | bool (b : Bool)
  | num (q : ℚ)
  | int (n : Int)
  | str (s : String)
  | arr (l : List Int)
deriving DecidableEq, Repr

/-- A JSON object as an ordered key-value list (Python dicts preserve
insertion order and json.dumps serializes keys in that order). -/
abbrev JObj := List (String × JVal)

/-- Lookup of a key in a JSON object, first occurrence wins. -/
def jLookup (k : String) : JObj → Option JVal
  | [] => none
  | (k2, v) :: rest => if k = k2 then some v else jLookup k rest

/-- One bounding box returned by the detection model: xyxy pixel
coordinates as floats plus a confidence score, as model.predict yields. -/
structure RawBox where
  x1 : ℚ
  y1 : ℚ
  x2 : ℚ
  y2 : ℚ
  conf : ℚ
deriving DecidableEq, Repr

/-- A decoded RGB image; only its pixel dimensions matter here. -/
structure Image where
  width : Nat
  height : Nat
deriving DecidableEq, Repr

/-- Observable events of one script run, in program order. -/
inductive Event where
  | decoded
  | deviceResolved (d : String)
  | modelLoaded
  | predicted
  | cropped (box : Int × Int × Int × Int)
  | cropSaved (path : String)
  | ocrConstructed (lang : String) (useGpu : Bool)
  | ocrCalled
  | printed (j : JObj)
  | exited (code : Nat)
  | uncaughtExit (msg : String)
deriving DecidableEq, Repr

/-- True exactly on printed events. -/
def isPrintedEv : Event → Bool
  | .printed _ => true
  | _ => false

/-- True exactly on OCR events (construction or invocation). -/
def isOcrEv : Event → Bool
  | .ocrConstructed _ _ => true
  | .ocrCalled => true
  | _ => false

/-- True exactly on device-resolution events. -/
def isDevEv : Event → Bool
  | .deviceResolved _ => true
  | _ => false

/-- Python int() truncation toward zero on a rational (float) value. -/
def pyInt (q : ℚ) : Int := if 0 ≤ q then ⌊q⌋ else -⌊-q⌋

/-- Coordinate clamp used by both scripts: int(max(0, v)). -/
def clampCoord (v : ℚ) : Int := ⌊max 0 v⌋

/-- Elapsed wall-clock milliseconds: int((t1 - t0) * 1000). -/
def elapsedMs (t0 t1 : ℚ) : Int := pyInt ((t1 - t0) * 1000)

/-- Loop of np.argmax: scan the remaining confidences, keeping the index
and value of the first maximum seen so far. -/
def argmaxGo : List ℚ → ℚ → Nat → Nat → Nat
  | [], _, bi, _ => bi
  | c :: cs, bc, bi, i =>
      if bc < c then argmaxGo cs c i (i + 1) else argmaxGo cs bc bi (i + 1)

/-- Index of the first maximal element, as int(np.argmax(confs)) computes
it in both scripts. -/
def argmaxIdx : List ℚ → Nat
  | [] => 0
  | c :: cs => argmaxGo cs c 0 1

/-- Best-box selection shared by both scripts:
boxes[int(np.argmax(boxes.conf))]. -/
def selectBest (boxes : List RawBox) : RawBox :=
  boxes.getD (argmaxIdx (boxes.map RawBox.conf)) ⟨0, 0, 0, 0, 0⟩

/-- Fold value max over a list with an accumulator. -/
def listMax (c : ℚ) (cs : List ℚ) : ℚ := cs.foldl max c

/-- Device resolution in plate_detect.py: an auto device queries CUDA
inside try/except, any failure silently resolving to cpu. -/
def resolveDeviceDetect (arg : String) (cuda : Except String Bool) : String :=
  if arg = "auto" then
    match cuda with
    | .ok true => "0"
    | .ok false => "cpu"
    | .error _ => "cpu"
  else arg

/-- Device resolution in plate_local.py: an auto device queries CUDA with
no exception handler, so a failing capability check propagates. -/
def resolveDeviceLocal (arg : String) (cuda : Except String Bool) :
    Except String String :=
  if arg = "auto" then
    match cuda with
    | .ok true => .ok "0"
    | .ok false => .ok "cpu"
    | .error e => .error e
  else .ok arg

/-- One scan step of ocr_plate: keep (text, conf) when conf strictly
exceeds the best confidence so far. -/
def ocrStep (acc : Option String × ℚ) (e : String × ℚ) : Option String × ℚ :=
  if acc.2 < e.2 then (some e.1, e.2) else acc

/-- Function ocr_plate from plate_local.py: a falsy result (None or the
empty list) reports no text with confidence 0.0; otherwise the nested
lines are scanned with a strict comparison against a running best
confidence initialized to 0.0. -/
def ocrPlate (result : Option (List (List (String × ℚ)))) : Option String × ℚ :=
  match result with
  | none => (none, 0)
  | some [] => (none, 0)
  | some lines => lines.foldl (fun acc line => line.foldl ocrStep acc) (none, 0)

/-- Python truthiness of an optional string CLI value (argparse default is
None; the empty string is also falsy). -/
def truthyOpt (o : Option String) : Bool :=
  match o with
  | none => false
  | some s => s != ""

/-- Whether PaddleOCR is constructed with use_gpu:
device not in ("cpu", "-1"). -/
def useGpu (device : String) : Bool := !(device == "cpu" || device == "-1")

/-- JSON value for the recognized plate text: a string or null. -/
def plateVal (t : Option String) : JVal :=
  match t with
  | some s => .str s
  | none => .null

/-- Oracle environment for one plate_detect.py invocation: each field is
the outcome of one external interaction, in the order the script makes
them. -/
structure DetectEnv where
  imports : Except String Unit
  imageExists : Bool
  decode : Except String Image
  deviceArg : String
  cudaAvail : Except String Bool
  modelLoad : Except String Unit
  predict : Except String (List RawBox)
  outputCrop : Option String
  cropSave : Except String Unit
  startTime : ℚ
  endTime : ℚ

/-- Success JSON of plate_detect.py; the crop_path key is appended only
when a crop path was written. -/
def detectSuccessJson (conf : ℚ) (c1 c2 c3 c4 : Int) (ms : Int)
    (cropPath : Option String) : JObj :=
  [("detected", .bool true), ("confidence", .num conf),
   ("bbox", .arr [c1, c2, c3, c4]), ("elapsed_ms", .int ms)] ++
  (match cropPath with
   | some p => [("crop_path", .str p)]
   | none => [])

/-- The whole plate_detect.py process (module import plus main) as its
ordered event list. -/
def detectRun (env : DetectEnv) : List Event :=
  match env.imports with
  | .error m =>
    [.printed [("detected", .bool false), ("error", .str ("import_error: " ++ m))],
     .exited 1]
  | .ok _ =>
    if env.imageExists then
      match env.decode with
      | .error m => [.uncaughtExit m]
      | .ok _ =>
        .decoded ::
        .deviceResolved (resolveDeviceDetect env.deviceArg env.cudaAvail) ::
        match env.modelLoad with
        | .error m =>
          [.printed [("detected", .bool false),
             ("error", .str ("yolo_load_error: " ++ m))], .exited 3]
        | .ok _ =>
          .modelLoaded ::
          match env.predict with
          | .error m => [.uncaughtExit m]
          | .ok boxes =>
            .predicted ::
            if boxes = [] then
              [.printed [("detected", .bool false), ("confidence", .num 0),
                 ("elapsed_ms", .int (elapsedMs env.startTime env.endTime))],
               .exited 0]
            else
              let b := selectBest boxes
              let c1 := clampCoord b.x1
              let c2 := clampCoord b.y1
              let c3 := clampCoord b.x2
              let c4 := clampCoord b.y2
              let ms := elapsedMs env.startTime env.endTime
              if truthyOpt env.outputCrop then
                .cropped (c1, c2, c3, c4) ::
                match env.cropSave with
                | .error m => [.uncaughtExit m]
                | .ok _ =>
                  [.cropSaved (env.outputCrop.getD ""),
                   .printed (detectSuccessJson b.conf c1 c2 c3 c4 ms env.outputCrop),
                   .exited 0]
              else
                [.printed (detectSuccessJson b.conf c1 c2 c3 c4 ms none),
                 .exited 0]
    else
      [.printed [("detected", .bool false), ("error", .str "image_not_found")],
       .exited 2]

/-- Oracle environment for one plate_local.py invocation. -/
structure LocalEnv where
  imports : Except String Unit
  imageExists : Bool
  decode : Except String Image
  deviceArg : String
  cudaAvail : Except String Bool
  modelLoad : Except String Unit
  predict : Except String (List RawBox)
  ocrLang : String
  ocrInit : Except String Unit
  ocrRun : Except String (Option (List (List (String × ℚ))))
  startTime : ℚ
  endTime : ℚ

/-- Success JSON of plate_local.py. -/
def localSuccessJson (t : Option String) (detConf oconf : ℚ)
    (c1 c2 c3 c4 : Int) (ms : Int) : JObj :=
  [("plate", plateVal t), ("confidence", .num detConf),
   ("ocr_confidence", .num oconf), ("bbox", .arr [c1, c2, c3, c4]),
   ("elapsed_ms", .int ms)]

/-- The whole plate_local.py process (module import plus main) as its
ordered event list. -/
def localRun (env : LocalEnv) : List Event :=
  match env.imports with
  | .error m =>
    [.printed [("plate", .null), ("error", .str ("import_error: " ++ m))],
     .exited 1]
  | .ok _ =>
    if env.imageExists then
      match env.decode with
      | .error m => [.uncaughtExit m]
      | .ok _ =>
        .decoded ::
        match resolveDeviceLocal env.deviceArg env.cudaAvail with
        | .error m => [.uncaughtExit m]
        | .ok device =>
          .deviceResolved device ::
          match env.modelLoad with
          | .error m =>
            [.printed [("plate", .null),
               ("error", .str ("yolo_load_error: " ++ m))], .exited 3]
          | .ok _ =>
            .modelLoaded ::
            match env.predict with
            | .error m => [.uncaughtExit m]
            | .ok boxes =>
              .predicted ::
              if boxes = [] then
                [.printed [("plate", .null), ("confidence", .num 0)], .exited 0]
              else
                let b := selectBest boxes
                let c1 := clampCoord b.x1
                let c2 := clampCoord b.y1
                let c3 := clampCoord b.x2
                let c4 := clampCoord b.y2
                .cropped (c1, c2, c3, c4) ::
                match env.ocrInit with
                | .error m => [.uncaughtExit m]
                | .ok _ =>
                  .ocrConstructed env.ocrLang (useGpu device) ::
                  .ocrCalled ::
                  match env.ocrRun with
                  | .error m => [.uncaughtExit m]
                  | .ok r =>
                    [.printed (localSuccessJson (ocrPlate r).1 b.conf (ocrPlate r).2
                       c1 c2 c3 c4 (elapsedMs env.startTime env.endTime)),
                     .exited 0]
    else
      [.printed [("plate", .null), ("error", .str "image_not_found")],
       .exited 2]

/-- All entries of the bbox key of a JSON object, when present, are
nonnegative. -/
def bboxNonneg (j : JObj) : Bool :=
  match jLookup "bbox" j with
  | some (.arr l) => l.all (fun x => decide (0 ≤ x))
  | _ => true

theorem clampCoord_nonneg (v : ℚ) : 0 ≤ clampCoord v := by
  unfold clampCoord
  exact Int.le_floor.mpr (by exact_mod_cast le_max_left 0 v)

theorem pyInt_nonneg (q : ℚ) (h : 0 ≤ q) : 0 ≤ pyInt q := by
  unfold pyInt
  rw [if_pos h]
  exact Int.le_floor.mpr (by exact_mod_cast h)

theorem elapsedMs_nonneg (t0 t1 : ℚ) (h : t0 ≤ t1) : 0 ≤ elapsedMs t0 t1 := by
  unfold elapsedMs
  exact pyInt_nonneg _ (by nlinarith)

theorem listMax_cons (bc c : ℚ) (cs : List ℚ) :
    listMax bc (c :: cs) = listMax (max bc c) cs := rfl

theorem le_listMax_self (cs : List ℚ) : ∀ bc : ℚ, bc ≤ listMax bc cs := by
  induction cs with
  | nil => intro bc; exact le_refl bc
  | cons c cs ih =>
    intro bc
    rw [listMax_cons]
    exact le_trans (le_max_left bc c) (ih (max bc c))

theorem le_listMax_mem (cs : List ℚ) :
    ∀ (bc x : ℚ), x ∈ cs → x ≤ listMax bc cs := by
  induction cs with
  | nil => intro bc x hx; cases hx
  | cons c cs ih =>
    intro bc x hx
    rw [listMax_cons]
    rcases List.mem_cons.mp hx with h | h
    · subst h
      exact le_trans (le_max_right bc x) (le_listMax_self cs (max bc x))
    · exact ih (max bc c) x h

theorem listMax_mem_or (cs : List ℚ) :
    ∀ bc : ℚ, listMax bc cs = bc ∨ listMax bc cs ∈ cs := by
  induction cs with
  | nil => intro bc; exact Or.inl rfl
  | cons c cs ih =>
    intro bc
    rw [listMax_cons]
    rcases ih (max bc c) with h | h
    · rcases max_choice bc c with hm | hm
      · exact Or.inl (by rw [h, hm])
      · exact Or.inr (by rw [h, hm]; exact List.mem_cons_self c cs)
    · exact Or.inr (List.mem_cons_of_mem c h)

theorem listMax_max (cs : List ℚ) :
    ∀ a b : ℚ, listMax (max a b) cs = max a (listMax b cs) := by
  induction cs with
  | nil => intro a b; rfl
  | cons c cs ih =>
    intro a b
    rw [listMax_cons, listMax_cons, max_assoc, ih]

theorem listMax_of_le (cs : List ℚ) :
    ∀ bc : ℚ, (∀ x ∈ cs, x ≤ bc) → listMax bc cs = bc := by
  induction cs with
  | nil => intro bc _; rfl
  | cons c cs ih =>
    intro bc h
    rw [listMax_cons, max_eq_left (h c (List.mem_cons_self c cs))]
    exact ih bc (fun x hx => h x (List.mem_cons_of_mem c hx))

theorem argmaxGo_getD (cs : List ℚ) :
    ∀ (l : List ℚ) (bc : ℚ) (bi i : Nat), l.getD bi 0 = bc →
      (∀ j, j < cs.length → l.getD (i + j) 0 = cs.getD j 0) →
      l.getD (argmaxGo cs bc bi i) 0 = listMax bc cs := by
  induction cs with
  | nil => intro l bc bi i h1 _; exact h1
  | cons c cs ih =>
    intro l bc bi i h1 h2
    have hc : l.getD i 0 = c := by
      have := h2 0 (by simp)
      simpa using this
    rw [listMax_cons]
    unfold argmaxGo
    by_cases hlt : bc < c
    · rw [if_pos hlt, max_eq_right (le_of_lt hlt)]
      refine ih l c i (i + 1) hc ?_
      intro j hj
      have := h2 (j + 1) (by simpa using Nat.succ_lt_succ hj)
      rw [show i + 1 + j = i + (j + 1) by omega]
      simpa using this
    · rw [if_neg hlt, max_eq_left (le_of_not_lt hlt)]
      refine ih l bc bi (i + 1) h1 ?_
      intro j hj
      have := h2 (j + 1) (by simpa using Nat.succ_lt_succ hj)
      rw [show i + 1 + j = i + (j + 1) by omega]
      simpa using this

theorem getD_argmaxIdx (c : ℚ) (cs : List ℚ) :
    (c :: cs).getD (argmaxIdx (c :: cs)) 0 = listMax c cs := by
  refine argmaxGo_getD cs (c :: cs) c 0 1 rfl ?_
  intro j hj
  rw [show 1 + j = j + 1 by omega]
  simp

theorem conf_getD_map (boxes : List RawBox) :
    ∀ idx : Nat, (boxes.getD idx ⟨0, 0, 0, 0, 0⟩).conf =
      (boxes.map RawBox.conf).getD idx 0 := by
  induction boxes with
  | nil => intro idx; rfl
  | cons b bs ih =>
    intro idx
    cases idx with
    | zero => rfl
    | succ n => simpa using ih n

theorem selectBest_conf_eq_listMax (c : ℚ) (cs : List ℚ) (boxes : List RawBox)
    (h : boxes.map RawBox.conf = c :: cs) :
    (selectBest boxes).conf = listMax c cs := by
  unfold selectBest
  rw [conf_getD_map boxes (argmaxIdx (boxes.map RawBox.conf)), h]
  exact getD_argmaxIdx c cs

theorem ocrStep_eq (acc : Option String × ℚ) (e : String × ℚ) :
    ocrStep acc e = if acc.2 < e.2 then (some e.1, e.2) else acc := rfl

theorem ocrFold_snd (es : List (String × ℚ)) :
    ∀ (bt : Option String) (bc : ℚ),
      (es.foldl ocrStep (bt, bc)).2 = listMax bc (es.map Prod.snd) := by
  induction es with
  | nil => intro bt bc; rfl
  | cons e es ih =>
    intro bt bc
    rw [List.foldl_cons, ocrStep_eq]
    by_cases h : bc < e.2
    · rw [if_pos h]
      rw [ih (some e.1) e.2]
      simp only [List.map_cons, listMax_cons]
      rw [max_eq_right (le_of_lt h)]
    · rw [if_neg h]
      rw [ih bt bc]
      simp only [List.map_cons, listMax_cons]
      rw [max_eq_left (le_of_not_lt h)]

theorem ocrFold_cases (es : List (String × ℚ)) :
    ∀ (bt : Option String) (bc : ℚ),
      es.foldl ocrStep (bt, bc) = (bt, bc) ∨
        ∃ e ∈ es, es.foldl ocrStep (bt, bc) = (some e.1, e.2) := by
  induction es with
  | nil => intro bt bc; exact Or.inl rfl
  | cons e es ih =>
    intro bt bc
    rw [List.foldl_cons, ocrStep_eq]
    by_cases h : bc < e.2
    · rw [if_pos h]
      rcases ih (some e.1) e.2 with h2 | ⟨e2, he2, h2⟩
      · exact Or.inr ⟨e, List.mem_cons_self e es, h2⟩
      · exact Or.inr ⟨e2, List.mem_cons_of_mem e he2, h2⟩
    · rw [if_neg h]
      rcases ih bt bc with h2 | ⟨e2, he2, h2⟩
      · exact Or.inl h2
      · exact Or.inr ⟨e2, List.mem_cons_of_mem e he2, h2⟩

theorem ocrFold_lines (lines : List (List (String × ℚ))) :
    ∀ acc : Option String × ℚ,
      lines.foldl (fun a line => line.foldl ocrStep a) acc =
        (lines.flatten).foldl ocrStep acc := by
  induction lines with
  | nil => intro acc; rfl
  | cons la ls ih =>
    intro acc
    rw [List.foldl_cons, List.flatten_cons, List.foldl_append]
    exact ih (la.foldl ocrStep acc)

theorem ocrFold_no_update (es : List (String × ℚ)) :
    ∀ (bt : Option String) (bc : ℚ), (∀ e ∈ es, e.2 ≤ bc) →
      es.foldl ocrStep (bt, bc) = (bt, bc) := by
  induction es with
  | nil => intro bt bc _; rfl
  | cons e es ih =>
    intro bt bc h
    rw [List.foldl_cons, ocrStep_eq]
    rw [if_neg (not_lt.mpr (h e (List.mem_cons_self e es)))]
    exact ih bt bc (fun x hx => h x (List.mem_cons_of_mem e hx))

/-- Detector environment with a missing image file. -/
def envDetectMissing : DetectEnv :=
  ⟨.ok (), false, .ok ⟨10, 10⟩, "cpu", .ok false, .ok (), .ok [], none, .ok (), 0, 0⟩

/-- Reader environment with a missing image file. -/
def envLocalMissing : LocalEnv :=
  ⟨.ok (), false, .ok ⟨10, 10⟩, "cpu", .ok false, .ok (), .ok [], "japan",
   .ok (), .ok none, 0, 0⟩

/-- Detector environment whose image decode raises. -/
def envDecodeFail : DetectEnv :=
  ⟨.ok (), true, .error "decode_error", "cpu", .ok false, .ok (), .ok [], none,
   .ok (), 0, 0⟩

/-- Detector environment whose model returns a box extending far past the
bounds of a 100 by 100 image. -/
def envBigBox : DetectEnv :=
  ⟨.ok (), true, .ok ⟨100, 100⟩, "cpu", .ok false, .ok (),
   .ok [⟨-5, 10, 10000, 10000, (9 : ℚ)/10⟩], none, .ok (), 0, 0⟩

/-- Reader environment where the auto device capability check raises. -/
def envCudaFail : LocalEnv :=
  ⟨.ok (), true, .ok ⟨10, 10⟩, "auto", .error "cuda_probe_failed", .ok (),
   .ok [], "japan", .ok (), .ok none, 0, 0⟩

/-- Reader environment with one detection and a successful OCR pass. -/
def envLocalSuccess : LocalEnv :=
  ⟨.ok (), true, .ok ⟨100, 100⟩, "cpu", .ok false, .ok (),
   .ok [⟨5, 6, 20, 30, 1⟩], "japan", .ok (),
   .ok (some [[("ABC123", 1)]]), 0, 0⟩

/-- Detector environment whose model returns zero boxes. -/
def envDetectEmpty : DetectEnv :=
  ⟨.ok (), true, .ok ⟨10, 10⟩, "cpu", .ok false, .ok (), .ok [], none, .ok (), 0, 1⟩

/-- Reader environment whose model returns zero boxes. -/
def envLocalEmpty : LocalEnv :=
  ⟨.ok (), true, .ok ⟨10, 10⟩, "cpu", .ok false, .ok (), .ok [], "japan",
   .ok (), .ok none, 0, 0⟩

/-- Reader environment whose OCR inference call raises. -/
def envOcrFail : LocalEnv :=
  ⟨.ok (), true, .ok ⟨100, 100⟩, "cpu", .ok false, .ok (),
   .ok [⟨5, 6, 20, 30, (4 : ℚ)/5⟩], "japan", .ok (), .error "ocr_error", 0, 0⟩

/-- Detector environment whose ultralytics import raises. -/
def envImportFail : DetectEnv :=
  ⟨.error "no_ultralytics", true, .ok ⟨10, 10⟩, "cpu", .ok false, .ok (), .ok [],
   none, .ok (), 0, 0⟩

/-- Detector environment whose YOLO model load raises. -/
def envYoloFail : DetectEnv :=
  ⟨.ok (), true, .ok ⟨10, 10⟩, "cpu", .ok false, .error "bad_weights", .ok [],
   none, .ok (), 0, 0⟩

/-- Detector environment whose predict call raises. -/
def envPredictFail : DetectEnv :=
  ⟨.ok (), true, .ok ⟨10, 10⟩, "cpu", .ok false, .ok (), .error "predict_error",
   none, .ok (), 0, 0⟩

/-- Detector environment whose crop save raises. -/
def envCropFail : DetectEnv :=
  ⟨.ok (), true, .ok ⟨100, 100⟩, "cpu", .ok false, .ok (),
   .ok [⟨5, 6, 20, 30, 1⟩], some "crop.png", .error "crop_save_error", 0, 0⟩

/-- Reader environment whose PaddleOCR construction raises. -/
def envOcrInitFail : LocalEnv :=
  ⟨.ok (), true, .ok ⟨100, 100⟩, "cpu", .ok false, .ok (),
   .ok [⟨5, 6, 20, 30, 1⟩], "japan", .error "paddle_init_error", .ok none, 0, 0⟩

/-- C1 counterexample: when the image decode raises, the detector script
prints no JSON at all and terminates with an uncaught exception, refuting
the claim that every failure at any stage is caught and converted into the
error field of a printed JSON result. -/
theorem c1_counterexample :
    (detectRun envDecodeFail).countP isPrintedEv = 0 ∧
    detectRun envDecodeFail = [Event.uncaughtExit "decode_error"] := by
  decide

/-- C1 amended: exactly three failure classes are caught and reported as
the error field of a single printed JSON object with a specific nonzero
exit code: import failure (exit 1), nonexistent image path (exit 2), and
detection-model load failure (exit 3). Failures raised during image
decode, detection inference, crop write, OCR construction, or OCR
inference are not caught: they propagate as an uncaught exception and no
JSON is printed. -/
theorem c1_top_level_error_mapping (e : DetectEnv) (l : LocalEnv) (m : String) :
    (e.imports = .error m → detectRun e =
      [.printed [("detected", .bool false), ("error", .str ("import_error: " ++ m))],
       .exited 1]) ∧
    (e.imports = .ok () → e.imageExists = false → detectRun e =
      [.printed [("detected", .bool false), ("error", .str "image_not_found")],
       .exited 2]) ∧
    (e.imports = .ok () → e.imageExists = true → e.decode = .error m →
      detectRun e = [.uncaughtExit m] ∧ (detectRun e).countP isPrintedEv = 0) ∧
    (∀ img, e.imports = .ok () → e.imageExists = true → e.decode = .ok img →
      e.modelLoad = .error m → detectRun e =
        [.decoded, .deviceResolved (resolveDeviceDetect e.deviceArg e.cudaAvail),
         .printed [("detected", .bool false),
           ("error", .str ("yolo_load_error: " ++ m))], .exited 3]) ∧
    (∀ img, e.imports = .ok () → e.imageExists = true → e.decode = .ok img →
      e.modelLoad = .ok () → e.predict = .error m →
      (detectRun e).countP isPrintedEv = 0 ∧
      (detectRun e).getLast? = some (.uncaughtExit m)) ∧
    (∀ img boxes, e.imports = .ok () → e.imageExists = true → e.decode = .ok img →
      e.modelLoad = .ok () → e.predict = .ok boxes → boxes ≠ [] →
      truthyOpt e.outputCrop = true → e.cropSave = .error m →
      (detectRun e).countP isPrintedEv = 0 ∧
      (detectRun e).getLast? = some (.uncaughtExit m)) ∧
    (∀ img boxes d, l.imports = .ok () → l.imageExists = true → l.decode = .ok img →
      resolveDeviceLocal l.deviceArg l.cudaAvail = .ok d → l.modelLoad = .ok () →
      l.predict = .ok boxes → boxes ≠ [] → l.ocrInit = .error m →
      (localRun l).countP isPrintedEv = 0 ∧
      (localRun l).getLast? = some (.uncaughtExit m)) ∧
    (∀ img boxes d, l.imports = .ok () → l.imageExists = true → l.decode = .ok img →
      resolveDeviceLocal l.deviceArg l.cudaAvail = .ok d → l.modelLoad = .ok () →
      l.predict = .ok boxes → boxes ≠ [] → l.ocrInit = .ok () →
      l.ocrRun = .error m →
      (localRun l).countP isPrintedEv = 0 ∧
      (localRun l).getLast? = some (.uncaughtExit m)) := by
  refine ⟨?_, ?_, ?_, ?_, ?_, ?_, ?_, ?_⟩
  · intro h1
    simp [detectRun, h1]
  · intro h1 h2
    simp [detectRun, h1, h2]
  · intro h1 h2 h3
    constructor
    · simp [detectRun, h1, h2, h3]
    · simp [detectRun, h1, h2, h3, List.countP_cons, isPrintedEv]
  · intro img h1 h2 h3 h4
    simp [detectRun, h1, h2, h3, h4]
  · intro img h1 h2 h3 h4 h5
    have hrun : detectRun e = [.decoded,
        .deviceResolved (resolveDeviceDetect e.deviceArg e.cudaAvail),
        .modelLoaded, .uncaughtExit m] := by
      simp [detectRun, h1, h2, h3, h4, h5]
    rw [hrun]
    exact ⟨rfl, rfl⟩
  · intro img boxes h1 h2 h3 h4 h5 h6 h7 h8
    have hrun : detectRun e = [.decoded,
        .deviceResolved (resolveDeviceDetect e.deviceArg e.cudaAvail),
        .modelLoaded, .predicted,
        .cropped (clampCoord (selectBest boxes).x1, clampCoord (selectBest boxes).y1,
          clampCoord (selectBest boxes).x2, clampCoord (selectBest boxes).y2),
        .uncaughtExit m] := by
      simp [detectRun, h1, h2, h3, h4, h5, h6, h7, h8]
    rw [hrun]
    exact ⟨rfl, rfl⟩
  · intro img boxes d h1 h2 h3 h4 h5 h6 h7 h8
    have hrun : localRun l = [.decoded, .deviceResolved d, .modelLoaded, .predicted,
        .cropped (clampCoord (selectBest boxes).x1, clampCoord (selectBest boxes).y1,
          clampCoord (selectBest boxes).x2, clampCoord (selectBest boxes).y2),
        .uncaughtExit m] := by
      simp [localRun, h1, h2, h3, h4, h5, h6, h7, h8]
    rw [hrun]
    exact ⟨rfl, rfl⟩
  · intro img boxes d h1 h2 h3 h4 h5 h6 h7 h8 h9
    have hrun : localRun l = [.decoded, .deviceResolved d, .modelLoaded, .predicted,
        .cropped (clampCoord (selectBest boxes).x1, clampCoord (selectBest boxes).y1,
          clampCoord (selectBest boxes).x2, clampCoord (selectBest boxes).y2),
        .ocrConstructed l.ocrLang (useGpu d), .ocrCalled, .uncaughtExit m] := by
      simp [localRun, h1, h2, h3, h4, h5, h6, h7, h8, h9]
    rw [hrun]
    exact ⟨rfl, rfl⟩

/-- C1 witness: the amended theorem applied, conjunct by conjunct, at
concrete environments for import failure, missing image, decode failure,
model-load failure, predict failure, crop-save failure, OCR-construction
failure, and OCR-inference failure. -/
theorem c1_witness :
    detectRun envImportFail = [Event.printed [("detected", JVal.bool false),
      ("error", JVal.str "import_error: no_ultralytics")], Event.exited 1] ∧
    detectRun envDetectMissing = [Event.printed [("detected", JVal.bool false),
      ("error", JVal.str "image_not_found")], Event.exited 2] ∧
    (detectRun envDecodeFail = [Event.uncaughtExit "decode_error"] ∧
      (detectRun envDecodeFail).countP isPrintedEv = 0) ∧
    detectRun envYoloFail = [Event.decoded, Event.deviceResolved "cpu",
      Event.printed [("detected", JVal.bool false),
        ("error", JVal.str "yolo_load_error: bad_weights")], Event.exited 3] ∧
    ((detectRun envPredictFail).countP isPrintedEv = 0 ∧
      (detectRun envPredictFail).getLast? =
        some (Event.uncaughtExit "predict_error")) ∧
    ((detectRun envCropFail).countP isPrintedEv = 0 ∧
      (detectRun envCropFail).getLast? =
        some (Event.uncaughtExit "crop_save_error")) ∧
    ((localRun envOcrInitFail).countP isPrintedEv = 0 ∧
      (localRun envOcrInitFail).getLast? =
        some (Event.uncaughtExit "paddle_init_error")) ∧
    ((localRun envOcrFail).countP isPrintedEv = 0 ∧
      (localRun envOcrFail).getLast? = some (Event.uncaughtExit "ocr_error")) :=
  ⟨(c1_top_level_error_mapping envImportFail envLocalMissing "no_ultralytics").1
      rfl,
   (c1_top_level_error_mapping envDetectMissing envLocalMissing "x").2.1 rfl rfl,
   (c1_top_level_error_mapping envDecodeFail envLocalMissing "decode_error").2.2.1
      rfl rfl rfl,
   (c1_top_level_error_mapping envYoloFail envLocalMissing "bad_weights").2.2.2.1
      ⟨10, 10⟩ rfl rfl rfl rfl,
   (c1_top_level_error_mapping envPredictFail envLocalMissing
      "predict_error").2.2.2.2.1 ⟨10, 10⟩ rfl rfl rfl rfl rfl,
   (c1_top_level_error_mapping envCropFail envLocalMissing
      "crop_save_error").2.2.2.2.2.1 ⟨100, 100⟩ [⟨5, 6, 20, 30, 1⟩]
      rfl rfl rfl rfl rfl (by simp) rfl rfl,
   (c1_top_level_error_mapping envDetectMissing envOcrInitFail
      "paddle_init_error").2.2.2.2.2.2.1 ⟨100, 100⟩ [⟨5, 6, 20, 30, 1⟩] "cpu"
      rfl rfl rfl rfl rfl rfl (by simp) rfl,
   (c1_top_level_error_mapping envDetectMissing envOcrFail
      "ocr_error").2.2.2.2.2.2.2 ⟨100, 100⟩ [⟨5, 6, 20, 30, (4 : ℚ)/5⟩] "cpu"
      rfl rfl rfl rfl rfl rfl (by simp) rfl rfl⟩

/-- C3: for every non-empty list of candidate boxes returned by the
detection model, the box kept by both scripts
(boxes[int(np.argmax(confs))]) has confidence equal to the maximum of all
returned confidences. -/
theorem c3_selected_conf_is_max (boxes : List RawBox) (h : boxes ≠ []) :
    (selectBest boxes).conf ∈ boxes.map RawBox.conf ∧
    (boxes.map RawBox.conf).max? = some (selectBest boxes).conf := by
  obtain ⟨b, bs, rfl⟩ := List.exists_cons_of_ne_nil h
  have hmap : (b :: bs).map RawBox.conf = b.conf :: bs.map RawBox.conf := rfl
  have hsel := selectBest_conf_eq_listMax b.conf (bs.map RawBox.conf) (b :: bs) hmap
  constructor
  · rw [hmap, hsel]
    rcases listMax_mem_or (bs.map RawBox.conf) b.conf with h2 | h2
    · rw [h2]
      exact List.mem_cons_self _ _
    · exact List.mem_cons_of_mem _ h2
  · rw [hmap, hsel]
    rfl

/-- C3 witness: the argmax selection evaluated on two concrete boxes. -/
theorem c3_witness :
    (selectBest [⟨0, 0, 2, 2, (1 : ℚ)/2⟩, ⟨1, 1, 3, 3, (7 : ℚ)/10⟩]).conf ∈
      ([⟨0, 0, 2, 2, (1 : ℚ)/2⟩, ⟨1, 1, 3, 3, (7 : ℚ)/10⟩] : List RawBox).map
        RawBox.conf ∧
    (([⟨0, 0, 2, 2, (1 : ℚ)/2⟩, ⟨1, 1, 3, 3, (7 : ℚ)/10⟩] : List RawBox).map
        RawBox.conf).max? =
      some (selectBest [⟨0, 0, 2, 2, (1 : ℚ)/2⟩, ⟨1, 1, 3, 3, (7 : ℚ)/10⟩]).conf :=
  c3_selected_conf_is_max _ (by simp)

/-- C4: on a nonexistent image path, each script prints exactly its
image_not_found JSON object and exits with code 2, without loading or
invoking any model. -/
theorem c4_image_not_found (e : DetectEnv) (l : LocalEnv)
    (he1 : e.imports = .ok ()) (he2 : e.imageExists = false)
    (hl1 : l.imports = .ok ()) (hl2 : l.imageExists = false) :
    detectRun e = [.printed [("detected", .bool false),
      ("error", .str "image_not_found")], .exited 2] ∧
    localRun l = [.printed [("plate", .null),
      ("error", .str "image_not_found")], .exited 2] ∧
    Event.modelLoaded ∉ detectRun e ∧ Event.predicted ∉ detectRun e ∧
    Event.modelLoaded ∉ localRun l ∧ Event.ocrCalled ∉ localRun l := by
  have hd : detectRun e = [.printed [("detected", .bool false),
      ("error", .str "image_not_found")], .exited 2] := by
    simp [detectRun, he1, he2]
  have hl : localRun l = [.printed [("plate", .null),
      ("error", .str "image_not_found")], .exited 2] := by
    simp [localRun, hl1, hl2]
  refine ⟨hd, hl, ?_, ?_, ?_, ?_⟩ <;> simp [hd, hl]

/-- C4 witness: the not-found behavior at concrete environments. -/
theorem c4_witness :
    detectRun envDetectMissing = [Event.printed [("detected", JVal.bool false),
      ("error", JVal.str "image_not_found")], Event.exited 2] ∧
    Event.modelLoaded ∉ localRun envLocalMissing :=
  ⟨(c4_image_not_found envDetectMissing envLocalMissing rfl rfl rfl rfl).1,
   (c4_image_not_found envDetectMissing envLocalMissing rfl rfl rfl rfl).2.2.2.2.1⟩

/-- C5: in the reader pipeline, when detection yields no box the printed
JSON is exactly the two-key object plate null, confidence 0.0, the process
exits 0, and no OCR event (construction or invocation) occurs. -/
theorem c5_no_detection_skips_ocr (l : LocalEnv) (img : Image) (d : String)
    (h1 : l.imports = .ok ()) (h2 : l.imageExists = true) (h3 : l.decode = .ok img)
    (h4 : resolveDeviceLocal l.deviceArg l.cudaAvail = .ok d)
    (h5 : l.modelLoad = .ok ()) (h6 : l.predict = .ok []) :
    localRun l = [.decoded, .deviceResolved d, .modelLoaded, .predicted,
      .printed [("plate", .null), ("confidence", .num 0)], .exited 0] ∧
    (localRun l).countP isOcrEv = 0 := by
  have hrun : localRun l = [.decoded, .deviceResolved d, .modelLoaded, .predicted,
      .printed [("plate", .null), ("confidence", .num 0)], .exited 0] := by
    simp [localRun, h1, h2, h3, h4, h5, h6]
  exact ⟨hrun, by rw [hrun]; rfl⟩

/-- C5 witness: the no-detection reader outcome at a concrete environment. -/
theorem c5_witness :
    localRun envLocalEmpty = [Event.decoded, Event.deviceResolved "cpu",
      Event.modelLoaded, Event.predicted,
      Event.printed [("plate", JVal.null), ("confidence", JVal.num 0)],
      Event.exited 0] ∧
    (localRun envLocalEmpty).countP isOcrEv = 0 :=
  c5_no_detection_skips_ocr envLocalEmpty ⟨10, 10⟩ "cpu" rfl rfl rfl rfl rfl rfl

/-- C6: when the detection model returns zero boxes, the detector script
prints exactly the object detected false, confidence 0.0, elapsed_ms, with
no bbox key, elapsed_ms is nonnegative when the clock moves forward, and
the process exits with code 0. -/
theorem c6_zero_boxes (e : DetectEnv) (img : Image)
    (h1 : e.imports = .ok ()) (h2 : e.imageExists = true)
    (h3 : e.decode = .ok img) (h4 : e.modelLoad = .ok ())
    (h5 : e.predict = .ok []) (h6 : e.startTime ≤ e.endTime) :
    detectRun e = [.decoded,
      .deviceResolved (resolveDeviceDetect e.deviceArg e.cudaAvail), .modelLoaded,
      .predicted,
      .printed [("detected", .bool false), ("confidence", .num 0),
        ("elapsed_ms", .int (elapsedMs e.startTime e.endTime))], .exited 0] ∧
    0 ≤ elapsedMs e.startTime e.endTime ∧
    jLookup "bbox" [("detected", JVal.bool false), ("confidence", JVal.num 0),
      ("elapsed_ms", JVal.int (elapsedMs e.startTime e.endTime))] = none ∧
    Event.exited 0 ∈ detectRun e := by
  have hrun : detectRun e = [.decoded,
      .deviceResolved (resolveDeviceDetect e.deviceArg e.cudaAvail), .modelLoaded,
      .predicted,
      .printed [("detected", .bool false), ("confidence", .num 0),
        ("elapsed_ms", .int (elapsedMs e.startTime e.endTime))], .exited 0] := by
    simp [detectRun, h1, h2, h3, h4, h5]
  refine ⟨hrun, elapsedMs_nonneg _ _ h6, by simp [jLookup], by rw [hrun]; simp⟩

/-- C6 witness: the zero-box detector outcome at a concrete environment. -/
theorem c6_witness :
    0 ≤ elapsedMs 0 1 ∧ Event.exited 0 ∈ detectRun envDetectEmpty :=
  ⟨(c6_zero_boxes envDetectEmpty ⟨10, 10⟩ rfl rfl rfl rfl rfl
      (by norm_num [envDetectEmpty])).2.1,
   (c6_zero_boxes envDetectEmpty ⟨10, 10⟩ rfl rfl rfl rfl rfl
      (by norm_num [envDetectEmpty])).2.2.2⟩

/-- C7 counterexample: a non-empty OCR result whose single entry has
confidence 0.0. The claim says the text of the maximum-confidence entry is
returned, but ocr_plate returns no text at all, because entries are kept
only under a strict comparison against a best confidence starting at 0.0. -/
theorem c7_counterexample :
    ocrPlate (some [[("ABC", (0 : ℚ))]]) = (none, 0) ∧
    (ocrPlate (some [[("ABC", (0 : ℚ))]])).1 ≠ some "ABC" := by
  decide

/-- C7 amended: an empty or null OCR collection reports no text with
confidence 0.0; a non-empty collection containing at least one entry of
strictly positive confidence yields the text and confidence of a
maximum-confidence entry (the returned confidence is the maximum of all
entry confidences); entries are discarded otherwise. -/
theorem c7_best_text (lines : List (List (String × ℚ))) (e0 : String × ℚ)
    (h1 : lines ≠ []) (h2 : e0 ∈ lines.flatten) (h3 : 0 < e0.2) :
    ocrPlate none = (none, 0) ∧
    ocrPlate (some []) = (none, 0) ∧
    ocrPlate (some lines) ∈ (lines.flatten).map (fun e => (some e.1, e.2)) ∧
    ((lines.flatten).map Prod.snd).max? = some (ocrPlate (some lines)).2 := by
  obtain ⟨la, ls, rfl⟩ := List.exists_cons_of_ne_nil h1
  have hres : ocrPlate (some (la :: ls)) =
      ((la :: ls).flatten).foldl ocrStep (none, 0) := by
    show (la :: ls).foldl (fun a line => line.foldl ocrStep a) (none, 0) = _
    exact ocrFold_lines (la :: ls) (none, 0)
  have hnil : (la :: ls).flatten ≠ [] := List.ne_nil_of_mem h2
  obtain ⟨x, xs, hx⟩ := List.exists_cons_of_ne_nil hnil
  have hsnd := ocrFold_snd ((la :: ls).flatten) none 0
  rw [hx] at hsnd
  have hmap : (x :: xs).map Prod.snd = x.2 :: xs.map Prod.snd := rfl
  rw [hmap, listMax_cons] at hsnd
  have hmax : listMax (max 0 x.2) (xs.map Prod.snd) =
      max 0 (listMax x.2 (xs.map Prod.snd)) := listMax_max _ 0 x.2
  have he0le : e0.2 ≤ listMax x.2 (xs.map Prod.snd) := by
    have he0mem : e0 ∈ x :: xs := hx ▸ h2
    rcases List.mem_cons.mp he0mem with h | h
    · rw [h]
      exact le_listMax_self _ x.2
    · exact le_listMax_mem _ x.2 e0.2 (List.mem_map_of_mem Prod.snd h)
  have hpos : 0 < listMax x.2 (xs.map Prod.snd) := lt_of_lt_of_le h3 he0le
  have hsnd2 : (((la :: ls).flatten).foldl ocrStep (none, 0)).2 =
      listMax x.2 (xs.map Prod.snd) := by
    rw [hx, hsnd, hmax, max_eq_right (le_of_lt hpos)]
  refine ⟨rfl, rfl, ?_, ?_⟩
  · rcases ocrFold_cases ((la :: ls).flatten) none 0 with hcase | ⟨e, he, hcase⟩
    · exfalso
      rw [hcase] at hsnd2
      simp at hsnd2
      rw [← hsnd2] at hpos
      exact lt_irrefl 0 hpos
    · rw [hres, hcase]
      exact List.mem_map_of_mem (fun e => (some e.1, e.2)) he
  · rw [hres, hsnd2, hx, hmap]
    show some (List.foldl max x.2 (xs.map Prod.snd)) = _
    rfl

/-- C7 witness: the amended OCR selection at a concrete result collection. -/
theorem c7_witness :
    ocrPlate (some [[("AB", (1 : ℚ)/2)], [("CD", (3 : ℚ)/10)]]) ∈
      (([[("AB", (1 : ℚ)/2)], [("CD", (3 : ℚ)/10)]] :
        List (List (String × ℚ))).flatten).map (fun e => (some e.1, e.2)) ∧
    ((([[("AB", (1 : ℚ)/2)], [("CD", (3 : ℚ)/10)]] :
        List (List (String × ℚ))).flatten).map Prod.snd).max? =
      some (ocrPlate (some [[("AB", (1 : ℚ)/2)], [("CD", (3 : ℚ)/10)]])).2 :=
  ⟨(c7_best_text [[("AB", (1 : ℚ)/2)], [("CD", (3 : ℚ)/10)]] ("AB", (1 : ℚ)/2)
      (by simp) (by simp) (by norm_num)).2.2.1,
   (c7_best_text [[("AB", (1 : ℚ)/2)], [("CD", (3 : ℚ)/10)]] ("AB", (1 : ℚ)/2)
      (by simp) (by simp) (by norm_num)).2.2.2⟩

/-- C9: a non-empty OCR result collection whose entries all have
confidence at most 0.0 yields no text and confidence 0.0, the same outcome
as an empty collection, because of the strict comparison against the
running best confidence initialized to 0.0. -/
theorem c9_nonpositive_conf_no_text (lines : List (List (String × ℚ)))
    (h1 : lines ≠ []) (h2 : ∀ e ∈ lines.flatten, e.2 ≤ 0) :
    ocrPlate (some lines) = (none, 0) ∧ ocrPlate (some lines) = ocrPlate (some []) := by
  obtain ⟨la, ls, rfl⟩ := List.exists_cons_of_ne_nil h1
  have hres : ocrPlate (some (la :: ls)) =
      ((la :: ls).flatten).foldl ocrStep (none, 0) := by
    show (la :: ls).foldl (fun a line => line.foldl ocrStep a) (none, 0) = _
    exact ocrFold_lines (la :: ls) (none, 0)
  have hz : ((la :: ls).flatten).foldl ocrStep (none, 0) = (none, 0) :=
    ocrFold_no_update _ none 0 h2
  rw [hres, hz]
  exact ⟨rfl, rfl⟩

/-- C9 witness: zero and negative confidences at a concrete collection. -/
theorem c9_witness :
    ocrPlate (some [[("X", -(1 : ℚ)/2), ("Y", 0)]]) = (none, 0) :=
  (c9_nonpositive_conf_no_text [[("X", -(1 : ℚ)/2), ("Y", 0)]] (by simp)
    (by intro e he; simp at he; rcases he with rfl | rfl <;> norm_num)).1

theorem detect_printed_bbox_nonneg (e : DetectEnv) (j : JObj)
    (h : Event.printed j ∈ detectRun e) : bboxNonneg j = true := by
  obtain ⟨imp, iex, dec, darg, cav, mload, pred, ocrop, csave, t0, t1⟩ := e
  rcases imp with m | imp <;>
    rcases iex with _ | _ <;>
    rcases dec with dm | img <;>
    rcases mload with mm | ml <;>
    rcases pred with pm | boxes <;>
    (try rcases boxes with _ | ⟨b, bs⟩) <;>
    rcases htr : truthyOpt ocrop with _ | _ <;>
    rcases csave with cm | cs <;>
    simp_all [detectRun, bboxNonneg, jLookup, detectSuccessJson, List.all_cons,
      List.all_nil, decide_eq_true_eq, clampCoord_nonneg]

theorem local_printed_bbox_nonneg (l : LocalEnv) (j : JObj)
    (h : Event.printed j ∈ localRun l) : bboxNonneg j = true := by
  obtain ⟨imp, iex, dec, darg, cav, mload, pred, olang, oinit, orun, t0, t1⟩ := l
  rcases imp with m | imp <;>
    rcases iex with _ | _ <;>
    rcases dec with dm | img <;>
    rcases hdev : resolveDeviceLocal darg cav with dm2 | dev <;>
    rcases mload with mm | ml <;>
    rcases pred with pm | boxes <;>
    (try rcases boxes with _ | ⟨b, bs⟩) <;>
    rcases oinit with om | oi <;>
    rcases orun with rm | r <;>
    simp_all [localRun, bboxNonneg, jLookup, localSuccessJson, List.all_cons,
      List.all_nil, decide_eq_true_eq, clampCoord_nonneg]

theorem detectRun_dev_count (e : DetectEnv) :
    (detectRun e).countP isDevEv ≤ 1 := by
  obtain ⟨imp, iex, dec, darg, cav, mload, pred, ocrop, csave, t0, t1⟩ := e
  rcases imp with m | imp <;>
    rcases iex with _ | _ <;>
    rcases dec with dm | img <;>
    rcases mload with mm | ml <;>
    rcases pred with pm | boxes <;>
    (try rcases boxes with _ | ⟨b, bs⟩) <;>
    rcases htr : truthyOpt ocrop with _ | _ <;>
    rcases csave with cm | cs <;>
    simp_all [detectRun, List.countP_cons, List.countP_nil, isDevEv]

theorem localRun_dev_count (l : LocalEnv) :
    (localRun l).countP isDevEv ≤ 1 := by
  obtain ⟨imp, iex, dec, darg, cav, mload, pred, olang, oinit, orun, t0, t1⟩ := l
  rcases imp with m | imp <;>
    rcases iex with _ | _ <;>
    rcases dec with dm | img <;>
    rcases hdev : resolveDeviceLocal darg cav with dm2 | dev <;>
    rcases mload with mm | ml <;>
    rcases pred with pm | boxes <;>
    (try rcases boxes with _ | ⟨b, bs⟩) <;>
    rcases oinit with om | oi <;>
    rcases orun with rm | r <;>
    simp_all [localRun, List.countP_cons, List.countP_nil, isDevEv]

/-- Evaluation of the detector run on the big-box environment. -/
theorem envBigBox_trace :
    detectRun envBigBox = [Event.decoded, Event.deviceResolved "cpu",
      Event.modelLoaded, Event.predicted,
      Event.printed [("detected", JVal.bool true),
        ("confidence", JVal.num ((9 : ℚ)/10)),
        ("bbox", JVal.arr [0, 10, 10000, 10000]),
        ("elapsed_ms", JVal.int 0)],
      Event.exited 0] := by
  simp [detectRun, envBigBox, resolveDeviceDetect, selectBest, argmaxIdx,
    argmaxGo, detectSuccessJson, truthyOpt, elapsedMs, pyInt, clampCoord]

/-- Evaluation of the reader run on the successful OCR environment. -/
theorem envLocalSuccess_trace :
    localRun envLocalSuccess = [Event.decoded, Event.deviceResolved "cpu",
      Event.modelLoaded, Event.predicted, Event.cropped (5, 6, 20, 30),
      Event.ocrConstructed "japan" false, Event.ocrCalled,
      Event.printed [("plate", JVal.str "ABC123"), ("confidence", JVal.num 1),
        ("ocr_confidence", JVal.num 1), ("bbox", JVal.arr [5, 6, 20, 30]),
        ("elapsed_ms", JVal.int 0)],
      Event.exited 0] := by
  simp [localRun, envLocalSuccess, resolveDeviceLocal, selectBest, argmaxIdx,
    argmaxGo, localSuccessJson, plateVal, useGpu, ocrPlate, ocrStep,
    elapsedMs, pyInt, clampCoord]

/-- C2 counterexample: on a 100 by 100 image the model returns the box
(-5, 10, 10000, 10000); the printed bbox is [0, 10, 10000, 10000], whose
right and bottom coordinates exceed the image dimension 100, refuting the
claim that reported coordinates lie within the image bounds. -/
theorem c2_counterexample :
    detectRun envBigBox = [Event.decoded, Event.deviceResolved "cpu",
      Event.modelLoaded, Event.predicted,
      Event.printed [("detected", JVal.bool true),
        ("confidence", JVal.num ((9 : ℚ)/10)),
        ("bbox", JVal.arr [0, 10, 10000, 10000]),
        ("elapsed_ms", JVal.int 0)],
      Event.exited 0] ∧
    envBigBox.decode = Except.ok ⟨100, 100⟩ ∧ ¬((10000 : Int) ≤ 100) :=
  ⟨envBigBox_trace, rfl, by decide⟩

/-- C2 amended: every bbox printed by either script has all four
coordinates nonnegative (negative raw coordinates are clamped to zero by
int(max(0, v))), but no clamping to the image dimensions is performed, so
coordinates may exceed them. -/
theorem c2_printed_bbox_nonneg (e : DetectEnv) (l : LocalEnv) (j k : JObj) :
    (Event.printed j ∈ detectRun e → bboxNonneg j = true) ∧
    (Event.printed k ∈ localRun l → bboxNonneg k = true) :=
  ⟨fun h => detect_printed_bbox_nonneg e j h,
   fun h => local_printed_bbox_nonneg l k h⟩

/-- C2 witness: the nonnegativity of the printed bbox at the concrete
big-box environment. -/
theorem c2_witness :
    bboxNonneg [("detected", JVal.bool true),
      ("confidence", JVal.num ((9 : ℚ)/10)),
      ("bbox", JVal.arr [0, 10, 10000, 10000]),
      ("elapsed_ms", JVal.int 0)] = true :=
  (c2_printed_bbox_nonneg envBigBox envLocalMissing
      [("detected", JVal.bool true), ("confidence", JVal.num ((9 : ℚ)/10)),
       ("bbox", JVal.arr [0, 10, 10000, 10000]), ("elapsed_ms", JVal.int 0)]
      []).1 (by rw [envBigBox_trace]; simp)

/-- C8 counterexample: in the reader script a device value auto whose CUDA
capability check raises leads to an uncaught exception, not to a silent
cpu fallback: the run dies right after image decode and never resolves a
device. -/
theorem c8_counterexample :
    localRun envCudaFail = [Event.decoded,
      Event.uncaughtExit "cuda_probe_failed"] ∧
    Event.deviceResolved "cpu" ∉ localRun envCudaFail := by
  decide

/-- C8 amended: a device value of auto is resolved at most once per run,
before model load, to the accelerator index 0 when the capability check
reports an accelerator and to cpu otherwise; a failure of the check is
silently swallowed into cpu in the detector-only script, while in the
reader script the check is unguarded and the failure propagates. -/
theorem c8_auto_device (arg : String) (b : Bool) (m : String)
    (e : DetectEnv) (l : LocalEnv) (hne : arg ≠ "auto") :
    resolveDeviceDetect "auto" (.ok b) = (if b then "0" else "cpu") ∧
    resolveDeviceDetect "auto" (.error m) = "cpu" ∧
    resolveDeviceDetect arg (.ok b) = arg ∧
    resolveDeviceLocal "auto" (.ok b) = .ok (if b then "0" else "cpu") ∧
    resolveDeviceLocal "auto" (.error m) = .error m ∧
    resolveDeviceLocal arg (.ok b) = .ok arg ∧
    (detectRun e).countP isDevEv ≤ 1 ∧
    (localRun l).countP isDevEv ≤ 1 := by
  refine ⟨?_, rfl, ?_, ?_, rfl, ?_, detectRun_dev_count e, localRun_dev_count l⟩
  · cases b <;> rfl
  · simp [resolveDeviceDetect, hne]
  · cases b <;> rfl
  · simp [resolveDeviceLocal, hne]

/-- C8 witness: the device resolution outcomes at concrete arguments and a
concrete environment. -/
theorem c8_witness :
    resolveDeviceDetect "auto" (Except.error "boom") = "cpu" ∧
    resolveDeviceLocal "auto" (Except.error "boom") = Except.error "boom" ∧
    (localRun envCudaFail).countP isDevEv ≤ 1 :=
  ⟨(c8_auto_device "cpu" true "boom" envDetectMissing envCudaFail (by decide)).2.1,
   (c8_auto_device "cpu" true "boom" envDetectMissing envCudaFail
      (by decide)).2.2.2.2.1,
   (c8_auto_device "cpu" true "boom" envDetectMissing envCudaFail
      (by decide)).2.2.2.2.2.2.2⟩

/-- C10: in the reader pipeline, whenever both a crop and a printed JSON
object occur in one run, the bbox key of the printed object holds exactly
the four clamped integer coordinates of the cropped region handed to the
OCR stage. -/
theorem c10_bbox_matches_crop (l : LocalEnv) (b : Int × Int × Int × Int)
    (j : JObj) (h1 : Event.cropped b ∈ localRun l)
    (h2 : Event.printed j ∈ localRun l) :
    jLookup "bbox" j = some (JVal.arr [b.1, b.2.1, b.2.2.1, b.2.2.2]) := by
  obtain ⟨imp, iex, dec, darg, cav, mload, pred, olang, oinit, orun, t0, t1⟩ := l
  rcases imp with m | imp <;>
    rcases iex with _ | _ <;>
    rcases dec with dm | img <;>
    rcases hdev : resolveDeviceLocal darg cav with dm2 | dev <;>
    rcases mload with mm | ml <;>
    rcases pred with pm | boxes <;>
    (try rcases boxes with _ | ⟨bx, bs⟩) <;>
    rcases oinit with om | oi <;>
    rcases orun with rm | r <;>
    simp_all [localRun, localSuccessJson, jLookup]

/-- C10 witness: the bbox and crop correspondence at a concrete
environment with one detection and a successful OCR pass. -/
theorem c10_witness :
    jLookup "bbox" [("plate", JVal.str "ABC123"), ("confidence", JVal.num 1),
      ("ocr_confidence", JVal.num 1), ("bbox", JVal.arr [5, 6, 20, 30]),
      ("elapsed_ms", JVal.int 0)] =
      some (JVal.arr [((5 : Int), (6 : Int), (20 : Int), (30 : Int)).1,
        ((5 : Int), (6 : Int), (20 : Int), (30 : Int)).2.1,
        ((5 : Int), (6 : Int), (20 : Int), (30 : Int)).2.2.1,
        ((5 : Int), (6 : Int), (20 : Int), (30 : Int)).2.2.2]) :=
  c10_bbox_matches_crop envLocalSuccess (5, 6, 20, 30)
    [("plate", JVal.str "ABC123"), ("confidence", JVal.num 1),
     ("ocr_confidence", JVal.num 1), ("bbox", JVal.arr [5, 6, 20, 30]),
     ("elapsed_ms", JVal.int 0)] (by rw [envLocalSuccess_trace]; simp)
    (by rw [envLocalSuccess_trace]; simp)

end Tonsuu
